import Mathlib

/-!
Verification of the instance-lifecycle core of the omicron control plane.

The development shallowly embeds the Rust sources:
* `src/server_controller.rs` — `SimInstance` (`transition`, `transition_finish`)
  and `ServerController` (`instance_ensure`, `instance_poke`);
* `src/api_impl.rs` — `OxideRack` (`project_create`, `project_lookup`),
  `collection_list`, `collection_lookup`;
* `sled-agent/src/common/vlan.rs` — `VlanID` (`new`, `from_str`).

Conventions of the embedding:
* UUIDs are modelled as `Nat` (they are only compared for equality and copied).
* Timestamps (`time_updated`, set from the wall clock) are outside the
  embedding; every other field of the runtime state is carried.
* `BTreeMap` is modelled as a function `K → Option V` where only point
  lookup/insert/remove matter, and as a strictly-sorted association list
  where iteration order matters (`collection_list`).
* Rust panics (`unwrap`, `assert!`, explicit `panic!`) are modelled by
  returning `none`.
* Logging, channels and the async machinery carry no state that the verified
  operations read, except for the presence of a per-instance channel sender,
  kept as the boolean `channel_tx`.
-/

/-- Run states of an instance (`ApiInstanceState` in `api_model.rs`). -/
inductive ApiInstanceState where
  | Creating
  | Starting
  | Running
  | Stopping
  | Stopped
  | Repairing
  | Failed
  | Destroyed
deriving DecidableEq, Repr

/-- Modelled from the spec: `ApiInstanceState::is_stopped` is declared in
`api_model.rs`, which is not among the provided sources.  The spec defines the
predicate to be true exactly for `Creating`, `Stopped`, `Repairing`, `Failed`
and `Destroyed` (so `Starting`, `Running` and `Stopping` are "not stopped"). -/
def ApiInstanceState.is_stopped : ApiInstanceState → Bool
  | ApiInstanceState.Creating => true
  | ApiInstanceState.Stopped => true
  | ApiInstanceState.Repairing => true
  | ApiInstanceState.Failed => true
  | ApiInstanceState.Destroyed => true
  | _ => false

/-- Modelled from the spec: the `Display` impl for `ApiInstanceState` lives in
`api_model.rs`, which is not among the provided sources.  The spec's error
messages (for example `cannot reboot to a state other than "running"`) show the
rendering is the lower-case state name. -/
def ApiInstanceState.display : ApiInstanceState → String
  | ApiInstanceState.Creating => "creating"
  | ApiInstanceState.Starting => "starting"
  | ApiInstanceState.Running => "running"
  | ApiInstanceState.Stopping => "stopping"
  | ApiInstanceState.Stopped => "stopped"
  | ApiInstanceState.Repairing => "repairing"
  | ApiInstanceState.Failed => "failed"
  | ApiInstanceState.Destroyed => "destroyed"

/-- Runtime state of an instance (`ApiInstanceRuntimeState`); `time_updated`
is omitted (wall clock), `server_uuid` is a `Nat` stand-in for the UUID. -/
structure ApiInstanceRuntimeState where
  run_state : ApiInstanceState
  reboot_in_progress : Bool
  server_uuid : Nat
  gen : Nat
deriving DecidableEq, Repr

/-- Requested runtime state (`ApiInstanceRuntimeStateParams`). -/
structure ApiInstanceRuntimeStateParams where
  run_state : ApiInstanceState
  reboot_wanted : Bool
deriving DecidableEq, Repr

/-- Simulated instance (`SimInstance` in `server_controller.rs`); the logger is
omitted and the channel sender is kept as presence (`channel_tx = true` iff the
Rust field is `Some`). -/
structure SimInstance where
  current_run_state : ApiInstanceRuntimeState
  requested_run_state : Option ApiInstanceRuntimeStateParams
  channel_tx : Bool
deriving DecidableEq, Repr

/-- `SimInstance::new_simulated_auto` (the channel receiver is not modelled). -/
def SimInstance.new_simulated_auto
    (initial_runtime : ApiInstanceRuntimeState) : SimInstance :=
  { current_run_state := initial_runtime
    requested_run_state := none
    channel_tx := true }

/-- `SimInstance::new_simulated_explicit`. -/
def SimInstance.new_simulated_explicit
    (initial_runtime : ApiInstanceRuntimeState) : SimInstance :=
  { current_run_state := initial_runtime
    requested_run_state := none
    channel_tx := false }

/-- `SimInstance::transition`.  Returns the updated instance together with the
dropped previous target (the Rust method mutates `self` and returns the
`Option`).  The `try_send` on the channel changes no modelled state; its
asserts cannot fire (`is_full` is the only error on a live channel). -/
def SimInstance.transition (self : SimInstance)
    (given_target : ApiInstanceRuntimeStateParams) :
    SimInstance × Option ApiInstanceRuntimeStateParams :=
  let dropped := self.requested_run_state
  let state_before := self.current_run_state.run_state
  let state_after :=
    match given_target.run_state with
    | ApiInstanceState.Creating => ApiInstanceState.Running
    | ApiInstanceState.Starting => ApiInstanceState.Running
    | ApiInstanceState.Stopping => ApiInstanceState.Stopped
    | target_run_state => target_run_state
  let reb_pending := self.current_run_state.reboot_in_progress
  let reb_wanted : Bool :=
    decide (state_after = ApiInstanceState.Running) && given_target.reboot_wanted
  if state_after = state_before ∧
      ((reb_pending = false ∧ reb_wanted = false) ∨
        (reb_pending = true ∧ reb_wanted = true ∧
          state_before = ApiInstanceState.Stopping)) then
    ({ self with requested_run_state := none }, dropped)
  else
    let state_after :=
      if reb_wanted then ApiInstanceState.Stopped else state_after
    let immed :=
      if state_before.is_stopped = true ∧ state_after.is_stopped = false then
        (ApiInstanceState.Starting, true)
      else if state_before.is_stopped = false ∧ state_after.is_stopped = true then
        (ApiInstanceState.Stopping, true)
      else
        (state_after, false)
    let next : ApiInstanceRuntimeState :=
      { run_state := immed.1
        reboot_in_progress := reb_wanted
        server_uuid := self.current_run_state.server_uuid
        gen := self.current_run_state.gen + 1 }
    let requested : Option ApiInstanceRuntimeStateParams :=
      if immed.2 = true then
        some { run_state := state_after, reboot_wanted := reb_wanted }
      else none
    ({ current_run_state := next
       requested_run_state := requested
       channel_tx := self.channel_tx }, dropped)

/-- `SimInstance::transition_finish`.  The Rust method asserts that the pending
transition matches the transient state and panics on an unexpected state;
assert/panic is modelled as `none`. -/
def SimInstance.transition_finish (self : SimInstance) : Option SimInstance :=
  match self.requested_run_state with
  | none => some self
  | some requested =>
    let run_state_before := self.current_run_state.run_state
    let run_state_after := requested.run_state
    let asserts_hold : Bool :=
      match run_state_before with
      | ApiInstanceState.Starting =>
        decide (run_state_after = ApiInstanceState.Running) &&
          !requested.reboot_wanted
      | ApiInstanceState.Stopping =>
        run_state_after.is_stopped &&
          (requested.reboot_wanted == self.current_run_state.reboot_in_progress) &&
          (!requested.reboot_wanted ||
            decide (run_state_after = ApiInstanceState.Stopped))
      | _ => false
    if asserts_hold = false then none
    else
      let stepped : SimInstance :=
        { current_run_state :=
            { run_state := run_state_after
              reboot_in_progress := requested.reboot_wanted
              server_uuid := self.current_run_state.server_uuid
              gen := self.current_run_state.gen + 1 }
          requested_run_state := none
          channel_tx := self.channel_tx }
      if stepped.current_run_state.reboot_in_progress = true then
        some (stepped.transition
          { run_state := ApiInstanceState.Running, reboot_wanted := false }).1
      else
        some stepped

/-- Resource types named by API errors (`ApiResourceType` in `api_model.rs`). -/
inductive ApiResourceType where
  | Project
  | Instance
  | Sled
deriving DecidableEq, Repr

/-- Errors of the central controller (`ApiError` in `api_error.rs`, which is
not among the provided sources; the variants and their payloads are those
constructed by the sources and listed in the spec's error taxonomy). -/
inductive ApiError where
  | InvalidRequest (message : String)
  | ObjectAlreadyExists (type_name : ApiResourceType) (object_name : String)
  | ObjectNotFound (type_name : ApiResourceType) (object_name : String)
deriving DecidableEq, Repr

/-- Point insert on a map modelled as a function (`BTreeMap::insert`). -/
def mapInsert {K V : Type} [DecidableEq K]
    (m : K → Option V) (k : K) (v : V) : K → Option V :=
  fun j => if j = k then some v else m j

/-- Point removal on a map modelled as a function (`BTreeMap::remove`). -/
def mapRemove {K V : Type} [DecidableEq K]
    (m : K → Option V) (k : K) : K → Option V :=
  fun j => if j = k then none else m j

/-- `ServerControllerSimMode`. -/
inductive ServerControllerSimMode where
  | Auto
  | Api
deriving DecidableEq, Repr

/-- `ServerController`: per-sled registry of simulated instances.  The logger
and the handle to the central controller are omitted; instance UUIDs are
`Nat`. -/
structure ServerController where
  id : Nat
  sim_mode : ServerControllerSimMode
  instances : Nat → Option SimInstance

/-- `ServerController::instance_ensure`.  The Rust method receives the full
`ApiInstance`; only its id and its runtime state are read, so the embedding
takes those.  It returns the updated controller (the Rust method mutates the
map behind a mutex) together with the result. -/
def ServerController.instance_ensure (self : ServerController) (id : Nat)
    (api_instance_runtime : ApiInstanceRuntimeState)
    (target : ApiInstanceRuntimeStateParams) :
    ServerController × Except ApiError ApiInstanceRuntimeState :=
  if target.reboot_wanted = true ∧ target.run_state ≠ ApiInstanceState.Running then
    (self, Except.error (ApiError.InvalidRequest
      "cannot reboot to a state other than \"running\""))
  else
    let maybe_current := self.instances id
    let instances1 := mapRemove self.instances id
    let found : SimInstance × Bool :=
      match maybe_current with
      | some current => (current, false)
      | none =>
        match self.sim_mode with
        | ServerControllerSimMode.Auto =>
          (SimInstance.new_simulated_auto api_instance_runtime, true)
        | ServerControllerSimMode.Api =>
          (SimInstance.new_simulated_explicit api_instance_runtime, true)
    let inst := found.1
    let is_new := found.2
    let current_state := inst.current_run_state.run_state
    if target.reboot_wanted = true ∧ is_new = false ∧
        current_state ≠ ApiInstanceState.Starting ∧
        current_state ≠ ApiInstanceState.Running ∧
        (current_state ≠ ApiInstanceState.Stopping ∨
          inst.current_run_state.reboot_in_progress = false) then
      ({ self with instances := mapInsert instances1 id inst },
        Except.error (ApiError.InvalidRequest
          ("cannot reboot instance in state \"" ++ current_state.display ++ "\"")))
    else
      let stepped := inst.transition target
      ({ self with instances := mapInsert instances1 id stepped.1 },
        Except.ok stepped.1.current_run_state)

/-- Outcome of `ServerController::instance_poke`: the updated controller, the
state passed to `notify_instance_updated`, whether the instance came to rest
destroyed (and was therefore not re-inserted), and whether its channel was
closed. -/
structure InstancePokeResult where
  controller : ServerController
  new_state : ApiInstanceRuntimeState
  destroyed : Bool
  channel_closed : Bool

/-- `ServerController::instance_poke`.  The Rust method `unwrap`s the map
lookup and `transition_finish` can panic; both are modelled as `none`.  The
call to `notify_instance_updated` is I/O towards the central controller and is
represented by `new_state`, the value it receives. -/
def ServerController.instance_poke (self : ServerController) (id : Nat) :
    Option InstancePokeResult :=
  match self.instances id with
  | none => none
  | some inst =>
    let instances1 := mapRemove self.instances id
    match inst.transition_finish with
    | none => none
    | some inst2 =>
      let after := inst2.current_run_state
      if inst2.requested_run_state = none ∧
          after.run_state = ApiInstanceState.Destroyed then
        some { controller := { self with instances := instances1 }
               new_state := after
               destroyed := true
               channel_closed := inst2.channel_tx }
      else
        some { controller := { self with instances := mapInsert instances1 id inst2 }
               new_state := after
               destroyed := false
               channel_closed := false }

/-- Identity metadata of an API object (`ApiIdentityMetadata`; the timestamps
are omitted, the UUID is a `Nat`). -/
structure ApiIdentityMetadata where
  id : Nat
  name : String
  description : String
deriving DecidableEq, Repr

/-- Create-time identity metadata (`ApiIdentityMetadataCreateParams`). -/
structure ApiIdentityMetadataCreateParams where
  name : String
  description : String
deriving DecidableEq, Repr

/-- A project (`ApiProject`; the per-project instance map is not read by the
verified operations and is omitted). -/
structure ApiProject where
  identity : ApiIdentityMetadata
  generation : Nat
deriving DecidableEq, Repr

/-- `ApiProjectCreateParams`. -/
structure ApiProjectCreateParams where
  identity : ApiIdentityMetadataCreateParams
deriving DecidableEq, Repr

/-- State of the rack (`OxideRack` in `api_impl.rs`): the projects map, keyed
by validated name (`ApiName` is kept as `String`; validation happens at the
API boundary, outside these operations). -/
structure OxideRack where
  projects_by_name : String → Option ApiProject

/-- `collection_lookup` from `api_impl.rs`. -/
def collection_lookup {V : Type} (tree : String → Option V) (name : String)
    (resource_type : ApiResourceType) : Except ApiError V :=
  match tree name with
  | some v => Except.ok v
  | none => Except.error (ApiError.ObjectNotFound resource_type name)

/-- `OxideRack::project_create`.  The fresh UUID drawn from `Uuid::new_v4()`
is passed in as `fresh_id` (the system-assigned id). -/
def OxideRack.project_create (self : OxideRack)
    (new_project : ApiProjectCreateParams) (fresh_id : Nat) :
    OxideRack × Except ApiError ApiProject :=
  if (self.projects_by_name new_project.identity.name).isSome = true then
    (self, Except.error (ApiError.ObjectAlreadyExists ApiResourceType.Project
      new_project.identity.name))
  else
    let project : ApiProject :=
      { identity :=
          { id := fresh_id
            name := new_project.identity.name
            description := new_project.identity.description }
        generation := 1 }
    ({ projects_by_name :=
        mapInsert self.projects_by_name new_project.identity.name project },
      Except.ok project)

/-- `OxideRack::project_lookup`. -/
def OxideRack.project_lookup (self : OxideRack) (name : String) :
    Except ApiError ApiProject :=
  collection_lookup self.projects_by_name name ApiResourceType.Project

/-- `PaginationParams` from `api_impl.rs`. -/
structure PaginationParams (K : Type) where
  marker : Option K
  limit : Option Nat
deriving DecidableEq, Repr

/-- Modelled from the spec: `DEFAULT_LIST_PAGE_SIZE` is declared in
`api_model.rs`, which is not among the provided sources; the spec calls it
"the configured page size".  Its concrete value is irrelevant to every
property proved below, which holds for any value. -/
def DEFAULT_LIST_PAGE_SIZE : Nat := 100

/-- `collection_list` from `api_impl.rs`.  The ordered `BTreeMap` is
represented by its association list in ascending key order; on such a list
`tree.range(start..)` is exactly the sublist of entries with key at least
`start`, in order.  The source wraps each returned item, and the page itself,
in `Ok`; the wrappers are constant and dropped here. -/
def collection_list {K V : Type} [LinearOrder K]
    (tree : List (K × V)) (pagparams : PaginationParams K) : List V :=
  let limit := pagparams.limit.getD DEFAULT_LIST_PAGE_SIZE
  match pagparams.marker with
  | none => (tree.take limit).map Prod.snd
  | some start_value =>
    ((tree.filter fun kv => decide (start_value ≤ kv.1)).take limit).map Prod.snd

namespace external

/-- Errors of the sled agent's common API
(`omicron_common::api::external::Error`, a crate not among the provided
sources; the variants are the ones the sources construct plus the
`InvalidRequest` kind from the spec's taxonomy). -/
inductive Error where
  | InvalidRequest (message : String)
  | InvalidValue (label : String) (message : String)
deriving DecidableEq, Repr

end external

/-- `VLAN_MAX` from `sled-agent/src/common/vlan.rs`. -/
def VLAN_MAX : Nat := 4094

/-- `VlanID` wrapper; the `u16` payload is a `Nat` (callers pass values below
`2 ^ 16`). -/
structure VlanID where
  val : Nat
deriving DecidableEq, Repr

/-- `VlanID::new`. -/
def VlanID.new (id : Nat) : Except external.Error VlanID :=
  if VLAN_MAX < id then
    Except.error (external.Error.InvalidValue (toString id) "Invalid VLAN value")
  else
    Except.ok ⟨id⟩

/-- Accumulating digit parser modelling the loop of Rust's
`u16::from_str_radix` in base 10: digits are consumed left to right and the
accumulator errors out as soon as it would exceed `u16::MAX`. -/
def parseDigitsU16 : List Char → Nat → Except String Nat
  | [], acc => Except.ok acc
  | c :: rest, acc =>
    if c.isDigit = true then
      let acc2 := acc * 10 + (c.toNat - 48)
      if acc2 ≤ 65535 then parseDigitsU16 rest acc2
      else Except.error "number too large to fit in target type"
    else Except.error "invalid digit found in string"

/-- Modelled Rust `str::parse::<u16>` (standard library): an optional leading
`+` sign followed by at least one ASCII digit, rejecting values above
`u16::MAX`.  The error strings are the `Display` renderings of
`ParseIntError`. -/
def parseU16 (s : String) : Except String Nat :=
  match s.toList with
  | [] => Except.error "cannot parse integer from empty string"
  | '+' :: rest =>
    if rest.isEmpty = true then Except.error "invalid digit found in string"
    else parseDigitsU16 rest 0
  | cs => parseDigitsU16 cs 0

/-- `VlanID::from_str` (`FromStr` impl in `vlan.rs`). -/
def VlanID.from_str (s : String) : Except external.Error VlanID :=
  match parseU16 s with
  | Except.error e => Except.error (external.Error.InvalidValue s e)
  | Except.ok n => VlanID.new n

/-- One call of the claimed interface of a `SimInstance`: either a
`transition` to a target, or a `transition_finish`. -/
inductive SimStep where
  | trans (target : ApiInstanceRuntimeStateParams)
  | finish
deriving DecidableEq, Repr

/-- Execute one call on a `SimInstance` (`none` models a panic). -/
def SimInstance.step (self : SimInstance) : SimStep → Option SimInstance
  | SimStep.trans target => some (self.transition target).1
  | SimStep.finish => self.transition_finish

/-- Execute a sequence of calls on a `SimInstance`. -/
def SimInstance.run (self : SimInstance) : List SimStep → Option SimInstance
  | [] => some self
  | s :: rest =>
    match self.step s with
    | none => none
    | some next => next.run rest

/-- The spec's SimInstance invariant: a requested run state is outstanding
exactly while the current run state is transient. -/
def SimInstance.Inv (self : SimInstance) : Prop :=
  self.requested_run_state.isSome = true ↔
    (self.current_run_state.run_state = ApiInstanceState.Starting ∨
      self.current_run_state.run_state = ApiInstanceState.Stopping)

/-- Strengthened invariant: additionally, the outstanding request matches the
transient state the way `transition` always leaves it (this is exactly what
the asserts of `transition_finish` check). -/
def SimInstance.StrongInv (self : SimInstance) : Prop :=
  match self.requested_run_state with
  | none =>
    self.current_run_state.run_state ≠ ApiInstanceState.Starting ∧
      self.current_run_state.run_state ≠ ApiInstanceState.Stopping
  | some t =>
    (self.current_run_state.run_state = ApiInstanceState.Starting ∧
        t.run_state = ApiInstanceState.Running ∧ t.reboot_wanted = false) ∨
      (self.current_run_state.run_state = ApiInstanceState.Stopping ∧
        t.run_state.is_stopped = true ∧
        t.reboot_wanted = self.current_run_state.reboot_in_progress ∧
        (t.reboot_wanted = true → t.run_state = ApiInstanceState.Stopped))

theorem strongInv_to_inv (s : SimInstance) (h : s.StrongInv) : s.Inv := by
  unfold SimInstance.StrongInv at h
  unfold SimInstance.Inv
  rcases hreq : s.requested_run_state with _ | t <;> rw [hreq] at h
  · simp only [Option.isSome_none]
    constructor
    · intro hfalse; cases hfalse
    · intro hor; rcases hor with h1 | h1
      · exact absurd h1 h.1
      · exact absurd h1 h.2
  · simp only [Option.isSome_some]
    constructor
    · intro _
      rcases h with ⟨h1, _⟩ | ⟨h1, _⟩
      · exact Or.inl h1
      · exact Or.inr h1
    · intro _; trivial

theorem strongInv_transition (s : SimInstance)
    (t : ApiInstanceRuntimeStateParams) :
    ((s.transition t).1).StrongInv := by
  obtain ⟨⟨rs, rip, uuid, g⟩, req, tx⟩ := s
  obtain ⟨trs, rw⟩ := t
  cases rs <;> cases rip <;> cases trs <;> cases rw <;>
    simp +decide [SimInstance.transition, SimInstance.StrongInv,
      ApiInstanceState.is_stopped]

theorem strongInv_finish (s : SimInstance) (h : s.StrongInv) :
    ∃ s2, s.transition_finish = some s2 ∧ s2.StrongInv ∧
      ((∀ t, s.requested_run_state = some t → t.reboot_wanted = false) →
        s2.requested_run_state = none) := by
  obtain ⟨⟨rs, rip, uuid, g⟩, req, tx⟩ := s
  rcases req with _ | ⟨rrs, rrw⟩
  · exact ⟨_, rfl, h, fun _ => rfl⟩
  · simp only [SimInstance.StrongInv] at h
    rcases h with ⟨h1, h2, h3⟩ | ⟨h1, h2, h3, h4⟩
    · subst h1; subst h2; subst h3
      exact ⟨_, rfl, by simp +decide [SimInstance.StrongInv], fun _ => rfl⟩
    · subst h1; subst h3
      cases rrw with
      | false =>
        cases rrs <;> first
          | exact Bool.noConfusion h2
          | exact ⟨_, rfl, by simp +decide [SimInstance.StrongInv], fun _ => rfl⟩
      | true =>
        have h5 : rrs = ApiInstanceState.Stopped := h4 rfl
        subst h5
        refine ⟨_, rfl, strongInv_transition _ _, ?_⟩
        intro hnr
        exact absurd (hnr ⟨ApiInstanceState.Stopped, true⟩ rfl) (by decide)

theorem strongInv_run (s : SimInstance) (steps : List SimStep)
    (s2 : SimInstance) (h : s.StrongInv) (hr : s.run steps = some s2) :
    s2.StrongInv := by
  induction steps generalizing s with
  | nil =>
    simp only [SimInstance.run, Option.some.injEq] at hr
    subst hr
    exact h
  | cons a rest ih =>
    cases a with
    | trans t =>
      simp only [SimInstance.run, SimInstance.step] at hr
      exact ih _ (strongInv_transition s t) hr
    | finish =>
      obtain ⟨s1, hf, h1, _⟩ := strongInv_finish s h
      simp only [SimInstance.run, SimInstance.step] at hr
      rw [hf] at hr
      exact ih _ h1 hr

/-- C1 (amended): starting from a state with no requested run state and a
non-transient current run state, every sequence of `transition` and
`transition_finish` calls preserves the invariant that a requested run state
is outstanding exactly while the current run state is `Starting` or
`Stopping`; and after any `transition_finish` that does not complete the
stopping phase of a reboot (the pending request has `reboot_wanted = false`),
the requested run state is `None`.  (The original claim's second part — after
any `transition_finish` that leaves `reboot_in_progress` false the requested
state is `None` — is refuted by the reboot continuation, see the
counterexample.) -/
theorem c1_requested_iff_transient (s0 : SimInstance) (steps : List SimStep)
    (s1 : SimInstance)
    (hreq : s0.requested_run_state = none)
    (hst : s0.current_run_state.run_state ≠ ApiInstanceState.Starting)
    (hsp : s0.current_run_state.run_state ≠ ApiInstanceState.Stopping)
    (hrun : s0.run steps = some s1) :
    s1.Inv ∧
      ∀ s2, s1.transition_finish = some s2 →
        (∀ t, s1.requested_run_state = some t → t.reboot_wanted = false) →
        s2.requested_run_state = none := by
  have h0 : s0.StrongInv := by
    unfold SimInstance.StrongInv
    rw [hreq]
    exact ⟨hst, hsp⟩
  have h1 : s1.StrongInv := strongInv_run s0 steps s1 h0 hrun
  refine ⟨strongInv_to_inv s1 h1, ?_⟩
  intro s2 hf hnr
  obtain ⟨s2', hf', _, hnone⟩ := strongInv_finish s1 h1
  injection hf'.symm.trans hf with he
  rw [← he]
  exact hnone hnr

theorem c1_witness :
    SimInstance.Inv ⟨⟨ApiInstanceState.Starting, false, 0, 2⟩,
      some ⟨ApiInstanceState.Running, false⟩, true⟩ :=
  (c1_requested_iff_transient
    ⟨⟨ApiInstanceState.Stopped, false, 0, 1⟩, none, true⟩
    [SimStep.trans ⟨ApiInstanceState.Running, false⟩]
    ⟨⟨ApiInstanceState.Starting, false, 0, 2⟩,
      some ⟨ApiInstanceState.Running, false⟩, true⟩
    rfl (by decide) (by decide) rfl).1

/-- C1 counterexample to the claim as stated: from `Running`, a reboot
request followed by one `transition_finish` ends the call with
`reboot_in_progress = false` yet a requested run state still outstanding
(the continuation of the reboot towards `Running`). -/
theorem c1_counterexample :
    (SimInstance.run ⟨⟨ApiInstanceState.Running, false, 0, 1⟩, none, true⟩
        [SimStep.trans ⟨ApiInstanceState.Running, true⟩, SimStep.finish]).map
        (fun s => (s.current_run_state.reboot_in_progress,
          s.requested_run_state.isSome))
      = some (false, true) := by decide

/-- The observable reboot sequence from `Running`: immediately `Stopping` with
the reboot flag set and the generation bumped by 1; the first
`transition_finish` reaches `Starting` with the flag clear and the generation
bumped by 2 (an internal `Stopped` step consumes one generation); the second
`transition_finish` reaches `Running` with the generation bumped by 1 and no
requested run state left. -/
def RebootSequenceFrom (s : SimInstance) : Prop :=
  let s1 := (s.transition ⟨ApiInstanceState.Running, true⟩).1
  s1.current_run_state.run_state = ApiInstanceState.Stopping ∧
  s1.current_run_state.reboot_in_progress = true ∧
  s1.current_run_state.gen = s.current_run_state.gen + 1 ∧
  ∃ s2, s1.transition_finish = some s2 ∧
    s2.current_run_state.run_state = ApiInstanceState.Starting ∧
    s2.current_run_state.reboot_in_progress = false ∧
    s2.current_run_state.gen = s1.current_run_state.gen + 2 ∧
    ∃ s3, s2.transition_finish = some s3 ∧
      s3.current_run_state.run_state = ApiInstanceState.Running ∧
      s3.current_run_state.gen = s2.current_run_state.gen + 1 ∧
      s3.requested_run_state = none

/-- C2 (amended): from `Running` with no reboot in progress,
`transition(Running, reboot_wanted = true)` immediately yields
`Stopping(reboot = true)` with `gen + 1`; the first `transition_finish`
yields `Starting(reboot = false)` with `gen` incremented by 2 — not by 1 as
the claim states, because the internal `Stopped` state of the reboot
continuation consumes a generation — and the second `transition_finish`
yields `Running` with `gen + 1` and no requested run state.  The observed
sequence up to the next `Running` is exactly `Stopping(reboot = true)`,
`Starting(reboot = false)`, `Running`, strictly generation-ordered. -/
theorem c2_reboot_from_running (s : SimInstance)
    (h1 : s.current_run_state.run_state = ApiInstanceState.Running)
    (h2 : s.current_run_state.reboot_in_progress = false) :
    RebootSequenceFrom s := by
  obtain ⟨⟨rs, rip, uuid, g⟩, req, tx⟩ := s
  subst h1
  subst h2
  exact ⟨rfl, rfl, rfl, _, rfl, rfl, rfl, rfl, _, rfl, rfl, rfl, rfl⟩

theorem c2_witness :
    RebootSequenceFrom ⟨⟨ApiInstanceState.Running, false, 0, 1⟩, none, true⟩ :=
  c2_reboot_from_running ⟨⟨ApiInstanceState.Running, false, 0, 1⟩, none, true⟩
    rfl rfl

/-- C2 counterexample to the claim as stated: from `Running` at generation 1,
the reboot request moves to `Stopping` at generation 2, but the first
`transition_finish` reaches `Starting` at generation 4, not 3: the generation
is incremented by 2, not 1. -/
theorem c2_counterexample :
    (SimInstance.run ⟨⟨ApiInstanceState.Running, false, 0, 1⟩, none, true⟩
        [SimStep.trans ⟨ApiInstanceState.Running, true⟩, SimStep.finish]).map
        (fun s => (s.current_run_state.run_state, s.current_run_state.gen))
      = some (ApiInstanceState.Starting, 4) := by decide

/-- C3 (amended): a `transition` call strictly increases `gen` whenever it
changed the run state or the reboot flag, and `gen` never decreases — it is
either unchanged or incremented by exactly 1.  The claim's converse — `gen`
unchanged whenever the call changed neither field — is false: re-issuing a
reboot while the instance is `Stopping` with a reboot in progress increments
`gen` while leaving both fields as they were (see the counterexample). -/
theorem c3_gen_monotonic (s : SimInstance) (t : ApiInstanceRuntimeStateParams) :
    ((((s.transition t).1).current_run_state.run_state ≠
          s.current_run_state.run_state ∨
        ((s.transition t).1).current_run_state.reboot_in_progress ≠
          s.current_run_state.reboot_in_progress) →
      s.current_run_state.gen < ((s.transition t).1).current_run_state.gen) ∧
    (((s.transition t).1).current_run_state.gen = s.current_run_state.gen ∨
      ((s.transition t).1).current_run_state.gen = s.current_run_state.gen + 1) := by
  simp only [SimInstance.transition]
  split
  · exact ⟨fun h => by rcases h with h | h <;> exact absurd rfl h, Or.inl rfl⟩
  · exact ⟨fun _ => Nat.lt_succ_self _, Or.inr rfl⟩

theorem c3_witness :
    1 <
      ((SimInstance.transition ⟨⟨ApiInstanceState.Running, false, 0, 1⟩, none, true⟩
        ⟨ApiInstanceState.Stopped, false⟩).1).current_run_state.gen :=
  (c3_gen_monotonic ⟨⟨ApiInstanceState.Running, false, 0, 1⟩, none, true⟩
    ⟨ApiInstanceState.Stopped, false⟩).1 (by decide)

/-- C3 counterexample to the claim as stated: with the instance `Stopping`
and a reboot in progress (generation 5), issuing another reboot request
leaves the run state `Stopping` and the reboot flag set — neither field
changes — yet the generation is incremented to 6. -/
theorem c3_counterexample :
    (SimInstance.transition
        ⟨⟨ApiInstanceState.Stopping, true, 0, 5⟩,
          some ⟨ApiInstanceState.Stopped, true⟩, true⟩
        ⟨ApiInstanceState.Running, true⟩).1
      = ⟨⟨ApiInstanceState.Stopping, true, 0, 6⟩,
          some ⟨ApiInstanceState.Stopped, true⟩, true⟩ := by decide

/-- The behaviour of interrupting an in-flight start with `Destroyed`: the
`transition` returns the dropped target `Running`, immediately moves the
current run state to `Stopping` with the generation bumped, and the following
`transition_finish` reaches `Destroyed` with no requested run state left. -/
def InterruptedTransitionSpec (s : SimInstance) : Prop :=
  (s.transition ⟨ApiInstanceState.Destroyed, false⟩).2
      = some ⟨ApiInstanceState.Running, false⟩ ∧
  (let s1 := (s.transition ⟨ApiInstanceState.Destroyed, false⟩).1
   s1.current_run_state.run_state = ApiInstanceState.Stopping ∧
   s1.current_run_state.gen = s.current_run_state.gen + 1 ∧
   ∃ s2, s1.transition_finish = some s2 ∧
     s2.current_run_state.run_state = ApiInstanceState.Destroyed ∧
     s2.requested_run_state = none)

/-- C5 (confirmed): a `SimInstance` that is `Starting` with pending requested
run state `Running` (as left by `transition(Running)` from a stopped state),
when given `transition(Destroyed)`, returns the dropped previous target
`Running`, immediately moves to `Stopping` with the generation incremented,
and the subsequent `transition_finish` moves to `Destroyed` with no requested
run state. -/
theorem c5_interrupted_transition (s : SimInstance)
    (h1 : s.current_run_state.run_state = ApiInstanceState.Starting)
    (h2 : s.requested_run_state = some ⟨ApiInstanceState.Running, false⟩) :
    InterruptedTransitionSpec s := by
  obtain ⟨⟨rs, rip, uuid, g⟩, req, tx⟩ := s
  subst h1
  subst h2
  exact ⟨rfl, rfl, rfl, _, rfl, rfl, rfl⟩

theorem c5_witness :
    InterruptedTransitionSpec
      ⟨⟨ApiInstanceState.Starting, false, 0, 2⟩,
        some ⟨ApiInstanceState.Running, false⟩, true⟩ :=
  c5_interrupted_transition
    ⟨⟨ApiInstanceState.Starting, false, 0, 2⟩,
      some ⟨ApiInstanceState.Running, false⟩, true⟩ rfl rfl

/-- C10 (confirmed): whenever `instance_ensure` returns an error the stored
instance map is unchanged: the malformed-reboot-target error path never
touches the map, and the invalid-reboot-state error path re-inserts the
pre-existing `SimInstance` exactly as it was (`transition` is not invoked on
any error path, so neither the current nor the requested run state moves). -/
theorem c10_ensure_error_leaves_state (sc : ServerController) (id : Nat)
    (rt : ApiInstanceRuntimeState) (t : ApiInstanceRuntimeStateParams)
    (e : ApiError) (he : (sc.instance_ensure id rt t).2 = Except.error e) :
    ∀ k, (sc.instance_ensure id rt t).1.instances k = sc.instances k := by
  intro k
  obtain ⟨scid, mode, insts⟩ := sc
  unfold ServerController.instance_ensure at he ⊢
  by_cases hc1 : t.reboot_wanted = true ∧ t.run_state ≠ ApiInstanceState.Running
  · rw [if_pos hc1]
  · rw [if_neg hc1] at he ⊢
    rcases hmi : insts id with _ | inst
    · simp only [hmi] at he
      cases mode <;> dsimp only at he <;>
        · rw [if_neg] at he
          · exact absurd he (by simp)
          · intro hc2
            exact Bool.noConfusion hc2.2.1
    · simp only [hmi] at he ⊢
      by_cases hc2 : t.reboot_wanted = true ∧ True ∧
        inst.current_run_state.run_state ≠ ApiInstanceState.Starting ∧
        inst.current_run_state.run_state ≠ ApiInstanceState.Running ∧
        (inst.current_run_state.run_state ≠ ApiInstanceState.Stopping ∨
          inst.current_run_state.reboot_in_progress = false)
      · rw [if_pos hc2]
        dsimp only [mapInsert, mapRemove]
        by_cases hk : k = id
        · rw [if_pos hk, hk, hmi]
        · rw [if_neg hk, if_neg hk]
      · rw [if_neg hc2] at he
        exact absurd he (by simp)

theorem c10_witness :
    (ServerController.instance_ensure
        ⟨0, ServerControllerSimMode.Api,
          fun j => if j = 1 then
            some ⟨⟨ApiInstanceState.Failed, false, 0, 1⟩, none, false⟩
          else none⟩
        1 ⟨ApiInstanceState.Stopped, false, 0, 1⟩
        ⟨ApiInstanceState.Running, true⟩).1.instances 1
      = some ⟨⟨ApiInstanceState.Failed, false, 0, 1⟩, none, false⟩ :=
  (c10_ensure_error_leaves_state
    ⟨0, ServerControllerSimMode.Api,
      fun j => if j = 1 then
        some ⟨⟨ApiInstanceState.Failed, false, 0, 1⟩, none, false⟩
      else none⟩
    1 ⟨ApiInstanceState.Stopped, false, 0, 1⟩
    ⟨ApiInstanceState.Running, true⟩
    (ApiError.InvalidRequest "cannot reboot instance in state \"failed\"")
    rfl 1).trans rfl


theorem ensure_badtarget (sc : ServerController) (id : Nat)
    (rt : ApiInstanceRuntimeState) (t : ApiInstanceRuntimeStateParams)
    (h : t.reboot_wanted = true ∧ t.run_state ≠ ApiInstanceState.Running) :
    (sc.instance_ensure id rt t).2 = Except.error (ApiError.InvalidRequest
      "cannot reboot to a state other than \"running\"") := by
  unfold ServerController.instance_ensure
  rw [if_pos h]

theorem ensure_badstate (scid : Nat) (mode : ServerControllerSimMode)
    (insts : Nat → Option SimInstance) (id : Nat)
    (rt : ApiInstanceRuntimeState) (t : ApiInstanceRuntimeStateParams)
    (inst : SimInstance) (hmi : insts id = some inst)
    (hrw : t.reboot_wanted = true)
    (hrun : t.run_state = ApiInstanceState.Running)
    (h1 : inst.current_run_state.run_state ≠ ApiInstanceState.Starting)
    (h2 : inst.current_run_state.run_state ≠ ApiInstanceState.Running)
    (h3 : inst.current_run_state.run_state ≠ ApiInstanceState.Stopping ∨
      inst.current_run_state.reboot_in_progress = false) :
    (ServerController.instance_ensure ⟨scid, mode, insts⟩ id rt t).2
      = Except.error (ApiError.InvalidRequest
        ("cannot reboot instance in state \"" ++
          inst.current_run_state.run_state.display ++ "\"")) := by
  unfold ServerController.instance_ensure
  rw [if_neg (fun hc => hc.2 hrun)]
  simp only [hmi]
  rw [if_pos ⟨hrw, trivial, h1, h2, h3⟩]

theorem ensure_ok (scid : Nat) (mode : ServerControllerSimMode)
    (insts : Nat → Option SimInstance) (id : Nat)
    (rt : ApiInstanceRuntimeState) (t : ApiInstanceRuntimeStateParams)
    (himp : t.reboot_wanted = true → t.run_state = ApiInstanceState.Running)
    (hgood : ∀ inst, insts id = some inst → t.reboot_wanted = true →
      inst.current_run_state.run_state = ApiInstanceState.Starting ∨
      inst.current_run_state.run_state = ApiInstanceState.Running ∨
      (inst.current_run_state.run_state = ApiInstanceState.Stopping ∧
        inst.current_run_state.reboot_in_progress = true)) :
    ∃ st, (ServerController.instance_ensure ⟨scid, mode, insts⟩ id rt t).2
      = Except.ok st := by
  unfold ServerController.instance_ensure
  rw [if_neg (fun hc => hc.2 (himp hc.1))]
  rcases hmi : insts id with _ | inst
  · simp only [hmi]
    cases mode <;> dsimp only <;>
      · rw [if_neg (fun hc2 => Bool.noConfusion hc2.2.1)]
        exact ⟨_, rfl⟩
  · simp only [hmi]
    by_cases hrw : t.reboot_wanted = true
    · have hg := hgood inst hmi hrw
      rw [if_neg]
      · exact ⟨_, rfl⟩
      · intro hc2
        rcases hg with hgS | hgR | ⟨hgSp, hgRip⟩
        · exact hc2.2.2.1 hgS
        · exact hc2.2.2.2.1 hgR
        · rcases hc2.2.2.2.2 with hns | hrip
          · exact hns hgSp
          · exact Bool.noConfusion (hgRip.symm.trans hrip)
    · rw [if_neg (fun hc2 => hrw hc2.1)]
      exact ⟨_, rfl⟩

theorem ensure_ok_value (scid : Nat) (mode : ServerControllerSimMode)
    (insts : Nat → Option SimInstance) (id : Nat)
    (rt : ApiInstanceRuntimeState) (t : ApiInstanceRuntimeStateParams)
    (st : ApiInstanceRuntimeState)
    (hst : (ServerController.instance_ensure ⟨scid, mode, insts⟩ id rt t).2
      = Except.ok st) :
    (((ServerController.instance_ensure ⟨scid, mode, insts⟩ id rt t).1).instances
        id).map (fun i => i.current_run_state) = some st := by
  unfold ServerController.instance_ensure at hst ⊢
  by_cases hc1 : t.reboot_wanted = true ∧ t.run_state ≠ ApiInstanceState.Running
  · rw [if_pos hc1] at hst
    exact absurd hst (by simp)
  · rw [if_neg hc1] at hst ⊢
    rcases hmi : insts id with _ | inst
    · simp only [hmi] at hst ⊢
      cases mode <;> dsimp only at hst ⊢ <;>
        · rw [if_neg (fun hc2 => Bool.noConfusion hc2.2.1)] at hst ⊢
          injection hst with hst2
          subst hst2
          simp [mapInsert]
    · simp only [hmi] at hst ⊢
      by_cases hc2 : t.reboot_wanted = true ∧ True ∧
        inst.current_run_state.run_state ≠ ApiInstanceState.Starting ∧
        inst.current_run_state.run_state ≠ ApiInstanceState.Running ∧
        (inst.current_run_state.run_state ≠ ApiInstanceState.Stopping ∨
          inst.current_run_state.reboot_in_progress = false)
      · rw [if_pos hc2] at hst
        exact absurd hst (by simp)
      · rw [if_neg hc2] at hst ⊢
        injection hst with hst2
        subst hst2
        simp [mapInsert]

/-- C4 (amended): `instance_ensure` returns `InvalidRequest` when
`reboot_wanted` is set with a non-`Running` target; it returns
`InvalidRequest` when a reboot is requested for an instance that ALREADY
EXISTS on the sled and whose current run state is not `Starting`, not
`Running` and not `Stopping`-with-reboot-in-progress; in all other cases it
returns `Ok` with the runtime state of the instance left in the map.  The
original claim omits the exemption for instances not yet present on the sled:
for a new instance the reboot-state validation is skipped (`is_new`), a
`SimInstance` is created from the snapshot and `transition` is invoked, so
the call succeeds even when the snapshot's run state is outside the allowed
set (see the counterexample). -/
theorem c4_instance_ensure_validation (sc : ServerController) (id : Nat)
    (rt : ApiInstanceRuntimeState) (t : ApiInstanceRuntimeStateParams) :
    (t.reboot_wanted = true ∧ t.run_state ≠ ApiInstanceState.Running →
      (sc.instance_ensure id rt t).2 = Except.error (ApiError.InvalidRequest
        "cannot reboot to a state other than \"running\"")) ∧
    (∀ inst, sc.instances id = some inst →
      t.reboot_wanted = true → t.run_state = ApiInstanceState.Running →
      inst.current_run_state.run_state ≠ ApiInstanceState.Starting →
      inst.current_run_state.run_state ≠ ApiInstanceState.Running →
      (inst.current_run_state.run_state ≠ ApiInstanceState.Stopping ∨
        inst.current_run_state.reboot_in_progress = false) →
      (sc.instance_ensure id rt t).2 = Except.error (ApiError.InvalidRequest
        ("cannot reboot instance in state \"" ++
          inst.current_run_state.run_state.display ++ "\""))) ∧
    ((t.reboot_wanted = true → t.run_state = ApiInstanceState.Running) →
      (∀ inst, sc.instances id = some inst → t.reboot_wanted = true →
        inst.current_run_state.run_state = ApiInstanceState.Starting ∨
        inst.current_run_state.run_state = ApiInstanceState.Running ∨
        (inst.current_run_state.run_state = ApiInstanceState.Stopping ∧
          inst.current_run_state.reboot_in_progress = true)) →
      ∃ st, (sc.instance_ensure id rt t).2 = Except.ok st) ∧
    (∀ st, (sc.instance_ensure id rt t).2 = Except.ok st →
      ((sc.instance_ensure id rt t).1.instances id).map
          (fun i => i.current_run_state) = some st) := by
  obtain ⟨scid, mode, insts⟩ := sc
  exact ⟨fun h => ensure_badtarget _ _ _ _ h,
    fun inst hmi hrw hrun h1 h2 h3 =>
      ensure_badstate scid mode insts id rt t inst hmi hrw hrun h1 h2 h3,
    fun himp hgood => ensure_ok scid mode insts id rt t himp hgood,
    fun st hst => ensure_ok_value scid mode insts id rt t st hst⟩

theorem c4_witness :
    (ServerController.instance_ensure
        ⟨0, ServerControllerSimMode.Api, fun _ => none⟩ 3
        ⟨ApiInstanceState.Stopped, false, 0, 1⟩
        ⟨ApiInstanceState.Stopped, true⟩).2
      = Except.error (ApiError.InvalidRequest
          "cannot reboot to a state other than \"running\"") :=
  (c4_instance_ensure_validation
    ⟨0, ServerControllerSimMode.Api, fun _ => none⟩ 3
    ⟨ApiInstanceState.Stopped, false, 0, 1⟩
    ⟨ApiInstanceState.Stopped, true⟩).1 ⟨rfl, by decide⟩

/-- C4 counterexample to the claim as stated: a reboot request
(`target = Running`, `reboot_wanted = true`) for an instance id that is not
yet present on the sled, with a snapshot whose run state is `Stopped` — a
state outside `{Starting, Running, Stopping-with-reboot-in-progress}` — is
accepted: `instance_ensure` returns `Ok`, not `InvalidRequest`, because the
reboot-state validation is skipped for newly created instances. -/
theorem c4_counterexample :
    (ServerController.instance_ensure
        ⟨0, ServerControllerSimMode.Api, fun _ => none⟩ 7
        ⟨ApiInstanceState.Stopped, false, 0, 1⟩
        ⟨ApiInstanceState.Running, true⟩).2
      = Except.ok ⟨ApiInstanceState.Stopped, true, 0, 2⟩ := by rfl

/-- C6 (confirmed): for every `instance_poke` on an instance present in the
map (and whose `transition_finish` completes without panicking), the
`SimInstance` is removed from the sled's instance map — and its notification
channel closed, when it has one — if and only if after `transition_finish`
its run state is `Destroyed` with no requested run state outstanding;
otherwise it is re-inserted with its post-`transition_finish` state.  In
either case the state forwarded to `notify_instance_updated` is the
post-`transition_finish` runtime state, and other keys are untouched. -/
theorem c6_instance_poke (sc : ServerController) (id : Nat)
    (inst inst2 : SimInstance)
    (hins : sc.instances id = some inst)
    (hf : inst.transition_finish = some inst2) :
    ∃ res, sc.instance_poke id = some res ∧
      res.new_state = inst2.current_run_state ∧
      (res.destroyed = true ↔
        (inst2.requested_run_state = none ∧
          inst2.current_run_state.run_state = ApiInstanceState.Destroyed)) ∧
      (res.destroyed = true →
        res.controller.instances id = none ∧
        res.channel_closed = inst2.channel_tx) ∧
      (res.destroyed = false → res.controller.instances id = some inst2) ∧
      (∀ k, k ≠ id → res.controller.instances k = sc.instances k) := by
  unfold ServerController.instance_poke
  rw [hins]
  dsimp only
  rw [hf]
  dsimp only
  by_cases hc : inst2.requested_run_state = none ∧
    inst2.current_run_state.run_state = ApiInstanceState.Destroyed
  · rw [if_pos hc]
    refine ⟨_, rfl, rfl, ?_, ?_, ?_, ?_⟩
    · simpa using hc
    · intro _
      exact ⟨by simp [mapRemove], rfl⟩
    · intro hfalse
      exact Bool.noConfusion hfalse
    · intro k hk
      simp [mapRemove, hk]
  · rw [if_neg hc]
    refine ⟨_, rfl, rfl, ?_, ?_, ?_, ?_⟩
    · simp only [Bool.false_eq_true, false_iff]
      exact hc
    · intro hfalse
      exact Bool.noConfusion hfalse
    · intro _
      simp [mapInsert]
    · intro k hk
      simp [mapInsert, mapRemove, hk]

theorem c6_witness :
    ∃ res, ServerController.instance_poke
        ⟨0, ServerControllerSimMode.Api,
          fun j => if j = 1 then
            some ⟨⟨ApiInstanceState.Stopping, false, 0, 3⟩,
              some ⟨ApiInstanceState.Destroyed, false⟩, false⟩
          else none⟩ 1
        = some res ∧
      res.new_state = ⟨ApiInstanceState.Destroyed, false, 0, 4⟩ ∧
      (res.destroyed = true ↔
        ((none : Option ApiInstanceRuntimeStateParams) = none ∧
          ApiInstanceState.Destroyed = ApiInstanceState.Destroyed)) ∧
      (res.destroyed = true →
        res.controller.instances 1 = none ∧ res.channel_closed = false) ∧
      (res.destroyed = false →
        res.controller.instances 1
          = some ⟨⟨ApiInstanceState.Destroyed, false, 0, 4⟩, none, false⟩) ∧
      (∀ k, k ≠ 1 → res.controller.instances k =
        (fun j => if j = 1 then
          some ⟨⟨ApiInstanceState.Stopping, false, 0, 3⟩,
            some ⟨ApiInstanceState.Destroyed, false⟩, false⟩
        else none) k) :=
  c6_instance_poke
    ⟨0, ServerControllerSimMode.Api,
      fun j => if j = 1 then
        some ⟨⟨ApiInstanceState.Stopping, false, 0, 3⟩,
          some ⟨ApiInstanceState.Destroyed, false⟩, false⟩
      else none⟩ 1
    ⟨⟨ApiInstanceState.Stopping, false, 0, 3⟩,
      some ⟨ApiInstanceState.Destroyed, false⟩, false⟩
    ⟨⟨ApiInstanceState.Destroyed, false, 0, 4⟩, none, false⟩
    rfl rfl

/-- C7 (confirmed): creating a project under a fresh name succeeds and a
subsequent lookup of that name returns a project carrying the requested name
and description and the system-assigned id (`fresh_id` stands for the
`Uuid::new_v4()` drawn at creation); creating under an existing name fails
with `ObjectAlreadyExists`; looking up an absent name fails with
`ObjectNotFound`. -/
theorem c7_project_create_lookup (rack : OxideRack)
    (p : ApiProjectCreateParams) (fresh_id : Nat) :
    (rack.projects_by_name p.identity.name = none →
      ∃ proj, (rack.project_create p fresh_id).2 = Except.ok proj ∧
        proj.identity.name = p.identity.name ∧
        proj.identity.description = p.identity.description ∧
        proj.identity.id = fresh_id ∧
        ((rack.project_create p fresh_id).1).project_lookup p.identity.name
          = Except.ok proj) ∧
    ((rack.projects_by_name p.identity.name).isSome = true →
      (rack.project_create p fresh_id).2 = Except.error
        (ApiError.ObjectAlreadyExists ApiResourceType.Project p.identity.name)) ∧
    (∀ name, rack.projects_by_name name = none →
      rack.project_lookup name = Except.error
        (ApiError.ObjectNotFound ApiResourceType.Project name)) := by
  refine ⟨?_, ?_, ?_⟩
  · intro h
    unfold OxideRack.project_create
    rw [if_neg (by simp [h])]
    refine ⟨_, rfl, rfl, rfl, rfl, ?_⟩
    simp [OxideRack.project_lookup, collection_lookup, mapInsert]
  · intro h
    unfold OxideRack.project_create
    rw [if_pos h]
  · intro name h
    unfold OxideRack.project_lookup collection_lookup
    rw [h]

theorem c7_witness :
    ∃ proj,
      (OxideRack.project_create ⟨fun _ => none⟩ ⟨⟨"alpha", "first project"⟩⟩ 42).2
        = Except.ok proj ∧
      proj.identity.name = "alpha" ∧
      proj.identity.description = "first project" ∧
      proj.identity.id = 42 ∧
      ((OxideRack.project_create ⟨fun _ => none⟩
          ⟨⟨"alpha", "first project"⟩⟩ 42).1).project_lookup "alpha"
        = Except.ok proj :=
  (c7_project_create_lookup ⟨fun _ => none⟩ ⟨⟨"alpha", "first project"⟩⟩ 42).1 rfl

theorem head_take {α : Type} (l : List α) (n : Nat) (hn : 0 < n) :
    (l.take n).head? = l.head? := by
  cases n with
  | zero => exact absurd hn (by omega)
  | succ k => cases l <;> simp

theorem filter_ge_head {K V : Type} [LinearOrder K]
    (tree : List (K × V)) (m : K) (v : V)
    (hsorted : tree.Pairwise (fun a b => a.1 < b.1))
    (hmem : (m, v) ∈ tree) :
    (tree.filter fun kv => decide (m ≤ kv.1)).head? = some (m, v) := by
  induction tree with
  | nil => cases hmem
  | cons hd tl ih =>
    rw [List.pairwise_cons] at hsorted
    rcases List.mem_cons.mp hmem with hhd | htl
    · rw [← hhd]
      simp
    · have hlt : hd.1 < m := hsorted.1 (m, v) htl
      rw [List.filter_cons_of_neg (by simpa using not_le.mpr hlt)]
      exact ih hsorted.2 htl

theorem head_filter_eq_find {α : Type} (p : α → Bool) (l : List α) :
    (l.filter p).head? = l.find? p := by
  induction l with
  | nil => rfl
  | cons a l ih =>
    by_cases h : p a = true
    · rw [List.filter_cons_of_pos h, List.find?_cons_of_pos _ h]
      rfl
    · rw [List.filter_cons_of_neg (by simpa using h),
        List.find?_cons_of_neg _ (by simpa using h)]
      exact ih

theorem filter_ge_eq_dropWhile {K V : Type} [LinearOrder K]
    (tree : List (K × V)) (m : K)
    (hsorted : tree.Pairwise (fun a b => a.1 < b.1)) :
    (tree.filter fun kv => decide (m ≤ kv.1)) =
      tree.dropWhile fun kv => decide (kv.1 < m) := by
  induction tree with
  | nil => rfl
  | cons hd tl ih =>
    rw [List.pairwise_cons] at hsorted
    by_cases h : m ≤ hd.1
    · rw [List.filter_cons_of_pos (by simpa using h),
        List.dropWhile_cons_of_neg (by simpa using not_lt.mpr h)]
      congr 1
      apply List.filter_eq_self.mpr
      intro kv hkv
      simpa using le_of_lt (lt_of_le_of_lt h (hsorted.1 kv hkv))
    · rw [List.filter_cons_of_neg (by simpa using h),
        List.dropWhile_cons_of_pos (by simpa using not_le.mp h)]
      exact ih hsorted.2

/-- C8 (confirmed): on an ordered collection, `collection_list` returns at
most `limit` items (`limit` defaulting to the configured page size when
absent), taken from the collection in ascending key order; with no marker the
page begins at the smallest key; with a marker the page is exactly the
in-order run of entries from the smallest key at least the marker (every
entry with a smaller key is dropped, whether or not the marker key itself
occurs), its first item is the first entry with key at least the marker, and
in particular the marker item itself, if present, is the first item returned
(inclusive lower bound).  The statements about the first returned item assume
a non-empty page (`limit > 0`). -/
theorem c8_collection_list {K V : Type} [LinearOrder K]
    (tree : List (K × V)) (pagparams : PaginationParams K)
    (hsorted : tree.Pairwise (fun a b => a.1 < b.1)) :
    ((collection_list tree pagparams).length ≤
        pagparams.limit.getD DEFAULT_LIST_PAGE_SIZE) ∧
    (∃ page : List (K × V), List.Sublist page tree ∧
      List.Pairwise (fun a b => a.1 < b.1) page ∧
      collection_list tree pagparams = page.map Prod.snd) ∧
    (pagparams.marker = none →
      0 < pagparams.limit.getD DEFAULT_LIST_PAGE_SIZE →
      (collection_list tree pagparams).head? = tree.head?.map Prod.snd) ∧
    (∀ m, pagparams.marker = some m →
      collection_list tree pagparams =
        ((tree.dropWhile fun kv : K × V => decide (kv.1 < m)).take
          (pagparams.limit.getD DEFAULT_LIST_PAGE_SIZE)).map Prod.snd) ∧
    (∀ m, pagparams.marker = some m →
      0 < pagparams.limit.getD DEFAULT_LIST_PAGE_SIZE →
      (collection_list tree pagparams).head? =
        (tree.find? fun kv : K × V => decide (m ≤ kv.1)).map Prod.snd) ∧
    (∀ m v, pagparams.marker = some m → (m, v) ∈ tree →
      0 < pagparams.limit.getD DEFAULT_LIST_PAGE_SIZE →
      (collection_list tree pagparams).head? = some v) := by
  obtain ⟨marker, lim⟩ := pagparams
  cases marker with
  | none =>
    refine ⟨?_, ?_, ?_, ?_, ?_, ?_⟩
    · simp only [collection_list, List.length_map, List.length_take]
      exact Nat.min_le_left _ _
    · refine ⟨tree.take (lim.getD DEFAULT_LIST_PAGE_SIZE),
        List.take_sublist _ _, ?_, rfl⟩
      exact List.Pairwise.sublist (List.take_sublist _ _) hsorted
    · intro _ hl
      simp only [collection_list, List.head?_map]
      rw [head_take _ _ hl]
    · intro m hm
      exact absurd hm (by simp)
    · intro m hm
      exact absurd hm (by simp)
    · intro m v hm
      exact absurd hm (by simp)
  | some m0 =>
    refine ⟨?_, ?_, ?_, ?_, ?_, ?_⟩
    · simp only [collection_list, List.length_map, List.length_take]
      exact Nat.min_le_left _ _
    · refine ⟨(tree.filter fun kv : K × V => decide (m0 ≤ kv.1)).take
        (lim.getD DEFAULT_LIST_PAGE_SIZE),
        (List.take_sublist _ _).trans (List.filter_sublist _), ?_, rfl⟩
      exact List.Pairwise.sublist
        ((List.take_sublist _ _).trans (List.filter_sublist _)) hsorted
    · intro hm
      exact absurd hm (by simp)
    · intro m hm
      injection hm with hm
      subst hm
      simp only [collection_list]
      rw [filter_ge_eq_dropWhile tree m0 hsorted]
    · intro m hm hl
      injection hm with hm
      subst hm
      simp only [collection_list, List.head?_map]
      rw [head_take _ _ hl, head_filter_eq_find]
    · intro m v hm hmem hl
      injection hm with hm
      subst hm
      simp only [collection_list, List.head?_map]
      rw [head_take _ _ hl, filter_ge_head tree m0 v hsorted hmem]
      rfl

theorem c8_witness :
    ((collection_list [((1 : Nat), (10 : Nat)), (2, 20), (3, 30)]
        ⟨some 2, some 1⟩).head? = some 20) ∧
    ((collection_list [((1 : Nat), (10 : Nat)), (3, 30)]
        ⟨some 2, some 5⟩).head? =
      (([((1 : Nat), (10 : Nat)), (3, 30)]).find?
        fun kv : Nat × Nat => decide (2 ≤ kv.1)).map Prod.snd) :=
  ⟨(c8_collection_list [((1 : Nat), (10 : Nat)), (2, 20), (3, 30)]
      ⟨some 2, some 1⟩ (by decide)).2.2.2.2.2 2 20 rfl (by decide) (by decide),
    (c8_collection_list [((1 : Nat), (10 : Nat)), (3, 30)]
      ⟨some 2, some 5⟩ (by decide)).2.2.2.2.1 2 rfl (by decide)⟩

/-- C9 (amended): `VlanID::new(id)` succeeds exactly when `id ≤ 4094`
(`VLAN_MAX`, the IEEE 802.1Q maximum), and for `id > 4094` it fails with an
error of the `InvalidValue` kind — not `InvalidRequest` as the claim states —
carrying the offending value as its label; `VlanID::from_str` accepts exactly
the strings Rust's `u16` parser accepts (an optional leading `+` followed by
decimal digits, value at most `u16::MAX`) whose value is in range — so
besides plain decimal digit strings it also accepts `+`-signed ones. -/
theorem c9_vlan_id_range (id : Nat) :
    (id ≤ VLAN_MAX → VlanID.new id = Except.ok ⟨id⟩) ∧
    (VLAN_MAX < id → VlanID.new id = Except.error
      (external.Error.InvalidValue (toString id) "Invalid VLAN value")) ∧
    (∀ s n, parseU16 s = Except.ok n → n ≤ VLAN_MAX →
      VlanID.from_str s = Except.ok ⟨n⟩) ∧
    (∀ s n, parseU16 s = Except.ok n → VLAN_MAX < n →
      VlanID.from_str s = Except.error
        (external.Error.InvalidValue (toString n) "Invalid VLAN value")) ∧
    (∀ s e, parseU16 s = Except.error e →
      VlanID.from_str s = Except.error (external.Error.InvalidValue s e)) := by
  refine ⟨?_, ?_, ?_, ?_, ?_⟩
  · intro h
    unfold VlanID.new
    rw [if_neg (by omega)]
  · intro h
    unfold VlanID.new
    rw [if_pos h]
  · intro s n hp hle
    simp only [VlanID.from_str, hp, VlanID.new]
    rw [if_neg (by omega)]
  · intro s n hp hgt
    simp only [VlanID.from_str, hp, VlanID.new]
    rw [if_pos hgt]
  · intro s e hp
    simp only [VlanID.from_str, hp]

theorem c9_witness :
    VlanID.new 4094 = Except.ok ⟨4094⟩ ∧
    VlanID.from_str "123" = Except.ok ⟨123⟩ :=
  ⟨(c9_vlan_id_range 4094).1 (by decide),
    (c9_vlan_id_range 123).2.2.1 "123" 123 rfl (by decide)⟩

/-- C9 counterexample to the claim as stated: `VlanID::new(4095)` fails with
the `InvalidValue` kind, not the `InvalidRequest` kind; and `from_str`
accepts `"+5"`, which is not a plain decimal digit string. -/
theorem c9_counterexample :
    VlanID.new 4095 = Except.error
      (external.Error.InvalidValue "4095" "Invalid VLAN value") ∧
    VlanID.from_str "+5" = Except.ok ⟨5⟩ :=
  ⟨rfl, rfl⟩
